import Mathlib

/-!
# Verification of the `allin1` model-loading and NATTEN-compatibility code

Shallow embedding of `src/allin1/models/loaders.py` and
`src/allin1/models/natten_compat.py`.

* A Python `dict` (a checkpoint `state_dict`) is modelled as an association
  list `List (String × T)` in insertion order; `del d[k]` removes the key.
* External collaborators (torch, huggingface hub download + deserialisation,
  `AllInOne` model construction and `load_state_dict`, devices) are abstracted
  as function parameters; the control flow, registries, name resolution and
  key migration are translated line by line from the source.
* Python's unbounded recursion between `load_pretrained_model` and
  `load_ensemble_model` is modelled with an explicit fuel parameter; fuel
  exhaustion is a distinguished error that never occurs at the depths the
  concrete registries can produce.
-/

namespace AllIn1

/-! ## Definitions: `loaders.py` checkpoint migration -/

/-- `needle` equals a prefix of `hay` (character lists). Helper for the
Python substring test `needle in hay`. -/
def leadsSeq (needle hay : List Char) : Bool :=
  match needle, hay with
  | [], _ => true
  | _ :: _, [] => false
  | a :: as, b :: bs => a == b && leadsSeq as bs

/-- `needle` occurs contiguously inside `hay`: the Python `in` test on
strings, on character lists. -/
def containsSeq (needle hay : List Char) : Bool :=
  match hay with
  | [] => needle.isEmpty
  | _ :: rest => leadsSeq needle hay || containsSeq needle rest

/-- `'rpb' in k.lower()` — the key test of `_migrate_checkpoint`
(loaders.py line 16).  Lower-casing is per character (`str.lower()` on the
ASCII parameter names that occur in a checkpoint `state_dict`). -/
def hasRpb (k : String) : Bool :=
  containsSeq "rpb".toList (k.toList.map Char.toLower)

/-- `del state_dict[key]` on the association-list model of a Python dict. -/
def delKey (sd : List (String × T)) (k : String) : List (String × T) :=
  sd.filter (fun kv => !(kv.1 == k))

/-- `_migrate_checkpoint(state_dict)` (loaders.py lines 11–21): collect the
keys containing `'rpb'` case-insensitively, delete each of them from the
dict, and return `(rpb_keys, [])`.  Since the Python function mutates
`state_dict` in place, the model returns the mutated dict as the first
component: `(state_dict after deletion, rpb_keys, missing_keys = [])`. -/
def migrate_checkpoint (sd : List (String × T)) :
    List (String × T) × List String × List String :=
  let rpb_keys := (sd.map Prod.fst).filter (fun k => hasRpb k)
  (rpb_keys.foldl delKey sd, rpb_keys, [])

/-! ## Definitions: `natten_compat.py` — NATTEN compatibility layer

The module body runs at import time: it first tries to import the four
legacy symbols (`natten.functional.natten1dqkrpb`, …); if that raises
`ImportError` it imports the four modern symbols (`natten.functional.na1d_qk`,
…) *outside of any try block*, and sets `_NATTEN_NEW_API` / `NATTEN_VERSION`.
Importability of each symbol set is modelled as an `Option` (`none` =
`ImportError`); the module state produced by a successful import is the pair
(`_NATTEN_NEW_API`, `NATTEN_VERSION`). -/

/-- Error raised by a failed Python `import`. -/
inductive ImportFailure where
  | importFailed : ImportFailure
  deriving DecidableEq

/-- Module-level state of `natten_compat` after a successful import:
`_NATTEN_NEW_API` and `NATTEN_VERSION` (lines 11–27). -/
structure ShimState where
  nattenNewApi : Bool
  nattenVersion : String
  deriving DecidableEq

/-- The import-time module body of `natten_compat.py` (lines 11–27):
`try` the legacy symbols (`oldSyms`); on `ImportError` import the modern
symbols (`newSyms`) — and if those are unavailable too, the `ImportError`
from that second import escapes and the module import itself fails. -/
def moduleInit {A B : Type} : Option A → Option B → Except ImportFailure ShimState
  | some _, _ => .ok { nattenNewApi := false, nattenVersion := "old" }
  | none, some _ => .ok { nattenNewApi := true, nattenVersion := "new" }
  | none, none => .error .importFailed

/-- A call made to the underlying `natten.functional` backend, recording
which backend function was invoked and its arguments in the order the
wrapper passes them.  In the legacy convention `rpb` is the third,
positional argument; in the modern convention it is the trailing keyword
argument. -/
inductive NattenCall (T : Type) where
  | natten1dqkrpbOld (query key : T) (rpb : Option T) (kernelSize dilation : Nat)
  | na1dqkNew (query key : T) (kernelSize dilation : Nat) (rpb : Option T)
  | natten1davOld (attn value : T) (kernelSize dilation : Nat)
  | na1davNew (attn value : T) (kernelSize dilation : Nat)
  | natten2dqkrpbOld (query key : T) (rpb : Option T) (kernelSize dilation : Nat)
  | na2dqkNew (query key : T) (kernelSize dilation : Nat) (rpb : Option T)
  | natten2davOld (attn value : T) (kernelSize dilation : Nat)
  | na2davNew (attn value : T) (kernelSize dilation : Nat)
  deriving DecidableEq

/-- The `rpb` tensor forwarded to the backend by a call, if any. -/
def forwardedRpb : NattenCall T → Option T
  | .natten1dqkrpbOld _ _ r _ _ => r
  | .na1dqkNew _ _ _ _ r => r
  | .natten2dqkrpbOld _ _ r _ _ => r
  | .na2dqkNew _ _ _ _ r => r
  | _ => none

/-- `na1d_qk(query, key, kernel_size, dilation, *, rpb=None)`
(natten_compat.py lines 30–35): dispatch on `_NATTEN_NEW_API`. -/
def na1d_qk (s : ShimState) (query key : T) (kernelSize dilation : Nat)
    (rpb : Option T := none) : NattenCall T :=
  if s.nattenNewApi then .na1dqkNew query key kernelSize dilation rpb
  else .natten1dqkrpbOld query key rpb kernelSize dilation

/-- `na1d_av(attn, value, kernel_size, dilation)` (lines 38–43). -/
def na1d_av (s : ShimState) (attn value : T) (kernelSize dilation : Nat) :
    NattenCall T :=
  if s.nattenNewApi then .na1davNew attn value kernelSize dilation
  else .natten1davOld attn value kernelSize dilation

/-- `na2d_qk(query, key, kernel_size, dilation, *, rpb=None)` (lines 46–51). -/
def na2d_qk (s : ShimState) (query key : T) (kernelSize dilation : Nat)
    (rpb : Option T := none) : NattenCall T :=
  if s.nattenNewApi then .na2dqkNew query key kernelSize dilation rpb
  else .natten2dqkrpbOld query key rpb kernelSize dilation

/-- `na2d_av(attn, value, kernel_size, dilation)` (lines 54–59). -/
def na2d_av (s : ShimState) (attn value : T) (kernelSize dilation : Nat) :
    NattenCall T :=
  if s.nattenNewApi then .na2davNew attn value kernelSize dilation
  else .natten2davOld attn value kernelSize dilation

/-! ## Definitions: `loaders.py` registries and loaders -/

/-- `NAME_TO_FILE` (loaders.py lines 24–33), in dict insertion order. -/
def NAME_TO_FILE : List (String × String) :=
  [("harmonix-fold0", "harmonix-fold0-0vra4ys2.pth"),
   ("harmonix-fold1", "harmonix-fold1-3ozjhtsj.pth"),
   ("harmonix-fold2", "harmonix-fold2-gmgo0nsy.pth"),
   ("harmonix-fold3", "harmonix-fold3-i92b7m8p.pth"),
   ("harmonix-fold4", "harmonix-fold4-1bql5qo0.pth"),
   ("harmonix-fold5", "harmonix-fold5-x4z5zeef.pth"),
   ("harmonix-fold6", "harmonix-fold6-x7t226rq.pth"),
   ("harmonix-fold7", "harmonix-fold7-qwwskhg6.pth")]

/-- `ENSEMBLE_MODELS` (loaders.py lines 35–46). -/
def ENSEMBLE_MODELS : List (String × List String) :=
  [("harmonix-all",
    ["harmonix-fold0", "harmonix-fold1", "harmonix-fold2", "harmonix-fold3",
     "harmonix-fold4", "harmonix-fold5", "harmonix-fold6", "harmonix-fold7"])]

/-- Errors a loading call can raise.  `unknownName` is the `assert` on
loaders.py line 58 (its message carries the offending name and the list of
valid names); `keyError` is the uncaught `ENSEMBLE_MODELS[model_name]`
lookup failure on line 93 (the key may be `None`); `fetchFailed` wraps a
failure of the external download / deserialisation; `outOfFuel` stands for
Python recursion that never returns at the modelled depth. -/
inductive LoadErr (ε : Type) where
  | unknownName (name : String) (valid : List String)
  | keyError (key : Option String)
  | fetchFailed (e : ε)
  | outOfFuel

/-- The object returned by a loading call: a single `AllInOne` model or an
`Ensemble` of loaded members (loaders.py line 96: `Ensemble(models)`). -/
inductive Loaded (M : Type) where
  | single (m : M)
  | ensemble (ms : List (Loaded M))

/-- `model_name in ENSEMBLE_MODELS` (loaders.py line 54); `model_name` may
be `None`, which is never a key. -/
def isEnsembleName : Option String → Bool
  | none => false
  | some n => (List.lookup n ENSEMBLE_MODELS).isSome

/-- `list(NAME_TO_FILE.keys())[0]` (loaders.py line 57). -/
def defaultModelName : String :=
  ((NAME_TO_FILE.map Prod.fst).headD "")

/-- `model_name = model_name or list(NAME_TO_FILE.keys())[0]` (loaders.py
line 57).  Python's `or` takes the default when `model_name` is falsy:
`None` or the empty string. -/
def resolveName : Option String → String
  | none => defaultModelName
  | some s => if s = "" then defaultModelName else s

/-- Result of a loading call: the returned object or the raised error,
paired with the trace of checkpoint files fetched from the remote store
(each `hf_hub_download` that was reached, in order). -/
abbrev LoadResult (ε M : Type) := Except (LoadErr ε) (Loaded M) × List String

/-- The member loop of `load_ensemble_model` (loaders.py lines 93–95):
`for model_name in members: models.append(load_pretrained_model(...))`,
aborting at the first member whose load raises; `lp` is
`load_pretrained_model` applied to the fixed `cache_dir` and `device`. -/
def loadMembers (lp : String → LoadResult ε M) :
    List String → Except (LoadErr ε) (List (Loaded M)) × List String
  | [] => (.ok [], [])
  | n :: ns =>
    match lp n with
    | (.error e, tr) => (.error e, tr)
    | (.ok m, tr) =>
      match loadMembers lp ns with
      | (.error e, tr') => (.error e, tr ++ tr')
      | (.ok ms, tr') => (.ok (m :: ms), tr ++ tr')

/-- The body of `load_ensemble_model(model_name, cache_dir, device)`
(loaders.py lines 87–100), parameterised by the `load_pretrained_model`
it calls back into.  `ENSEMBLE_MODELS[model_name]` raises `KeyError` when
`model_name` (possibly `None`, its default) is not a key; otherwise the
members are loaded sequentially and collected into `Ensemble(models)`. -/
def ensembleBody (lp : String → LoadResult ε M) (model_name : Option String) :
    LoadResult ε M :=
  match model_name with
  | none => (.error (.keyError none), [])
  | some n =>
    match List.lookup n ENSEMBLE_MODELS with
    | none => (.error (.keyError (some n)), [])
    | some members =>
      match loadMembers lp members with
      | (.error e, tr) => (.error e, tr)
      | (.ok ms, tr) => (.ok (.ensemble ms), tr)

/-- `load_pretrained_model(model_name, cache_dir, device)` (loaders.py
lines 49–84).  External collaborators are parameters: `fetchCkpt` is
`hf_hub_download` + `torch.load` + `OmegaConf.create`, returning the
checkpoint's `(config, state_dict)` or failing; `buildModel` is
`AllInOne(config).to(device)` followed by the non-strict
`load_state_dict` of the migrated state dict and `eval()`.  Device
resolution (lines 60–64) touches no data the claims mention and is
absorbed into the two collaborators.  The body: ensemble delegation
(into `ensembleBody`, which calls back into `load_pretrained_model` with
one unit of fuel spent), then default-name resolution, then the `assert`,
then fetch, then `_migrate_checkpoint`, then model construction. -/
def load_pretrained_model (fuel : Nat) (fetchCkpt : String → Except ε (Cfg × List (String × T)))
    (buildModel : Cfg → List (String × T) → M) (model_name : Option String) :
    LoadResult ε M :=
  match fuel with
  | 0 => (.error .outOfFuel, [])
  | fuel + 1 =>
    if isEnsembleName model_name then
      ensembleBody (fun n => load_pretrained_model fuel fetchCkpt buildModel (some n))
        model_name
    else
      let resolved := resolveName model_name
      match List.lookup resolved NAME_TO_FILE with
      | none => (.error (.unknownName resolved (NAME_TO_FILE.map Prod.fst)), [])
      | some filename =>
        match fetchCkpt filename with
        | .error e => (.error (.fetchFailed e), [filename])
        | .ok (config, state_dict) =>
          (.ok (.single (buildModel config (migrate_checkpoint state_dict).1)),
           [filename])

/-- `load_ensemble_model(model_name, cache_dir, device)` (loaders.py lines
87–100) as a direct entry point: the body of 4.3, whose member loads call
`load_pretrained_model`. -/
def load_ensemble_model (fuel : Nat) (fetchCkpt : String → Except ε (Cfg × List (String × T)))
    (buildModel : Cfg → List (String × T) → M) (model_name : Option String) :
    LoadResult ε M :=
  match fuel with
  | 0 => (.error .outOfFuel, [])
  | fuel + 1 =>
    ensembleBody (fun n => load_pretrained_model fuel fetchCkpt buildModel (some n))
      model_name

/-! ## Helper lemmas -/

/-- Folding `delKey` over a list of keys is filtering out those keys. -/
theorem foldl_delKey_eq_filter (ks : List String) (sd : List (String × T)) :
    ks.foldl delKey sd = sd.filter (fun kv => !(decide (kv.1 ∈ ks))) := by
  induction ks generalizing sd with
  | nil => simp [List.foldl]
  | cons k ks ih =>
    rw [List.foldl_cons, ih]
    show (delKey sd k).filter _ = _
    rw [delKey, List.filter_filter]
    apply List.filter_congr
    intro kv _
    simp [List.decide_mem_cons, Bool.not_or, Bool.and_comm, Bool.beq_eq_decide_eq]

/-- `_migrate_checkpoint` is exactly: filter out the keys containing
`'rpb'` (case-insensitively), report them, report no missing keys. -/
theorem migrate_checkpoint_eq_filter (sd : List (String × T)) :
    migrate_checkpoint sd =
      (sd.filter (fun kv => !(hasRpb kv.1)),
       (sd.map Prod.fst).filter (fun k => hasRpb k), []) := by
  unfold migrate_checkpoint
  refine Prod.ext ?_ rfl
  show ((sd.map Prod.fst).filter (fun k => hasRpb k)).foldl delKey sd = _
  rw [foldl_delKey_eq_filter]
  apply List.filter_congr
  intro kv hkv
  have hmem : kv.1 ∈ sd.map Prod.fst := List.mem_map_of_mem Prod.fst hkv
  cases h : hasRpb kv.1 <;> simp [List.mem_filter, hmem, h]

/-- A successful member loop yields one loaded model per member name, and
every member's own load succeeded. -/
theorem loadMembers_ok_each (lp : String → LoadResult ε M) :
    ∀ (ns : List String) (ms : List (Loaded M)) (tr : List String),
      loadMembers lp ns = (.ok ms, tr) →
      ms.length = ns.length ∧ ∀ n ∈ ns, ∃ m tr', lp n = (.ok m, tr') := by
  intro ns
  induction ns with
  | nil =>
    intro ms tr h
    simp only [loadMembers] at h
    obtain ⟨h1, _⟩ := Prod.mk.injEq .. ▸ h
    exact ⟨by simp [← Except.ok.injEq .. ▸ h1], by simp⟩
  | cons n ns ih =>
    intro ms tr h
    simp only [loadMembers] at h
    rcases hlp : lp n with ⟨r1, tr1⟩
    rw [hlp] at h
    cases r1 with
    | error e => simp at h
    | ok m =>
      rcases hrest : loadMembers lp ns with ⟨r2, tr2⟩
      rw [hrest] at h
      cases r2 with
      | error e => simp at h
      | ok ms2 =>
        simp only [Prod.mk.injEq, Except.ok.injEq] at h
        obtain ⟨hms, _⟩ := h
        obtain ⟨hlen, hall⟩ := ih ms2 tr2 hrest
        refine ⟨?_, ?_⟩
        · simp [← hms, hlen]
        · intro x hx
          rcases List.mem_cons.mp hx with hx | hx
          · exact ⟨m, tr1, hx ▸ hlp⟩
          · exact hall x hx

/-! ## Claims -/

/-- Claim C1: for every state mapping, `_migrate_checkpoint` removes exactly
the keys whose name contains `'rpb'` case-insensitively and no others,
leaves every other key and its value unchanged (in order), and returns the
list of removed key names (and an empty missing-keys list); in particular
on `{"blocks.0.attn.rpb": T1, "blocks.0.attn.weight": T2}` the mapping
afterwards is `{"blocks.0.attn.weight": T2}` and exactly the one removed
key `"blocks.0.attn.rpb"` is reported. -/
theorem migrate_checkpoint_removes_exactly_rpb {T : Type}
    (sd : List (String × T)) (t1 t2 : T) :
    migrate_checkpoint sd =
      (sd.filter (fun kv => !(hasRpb kv.1)),
       (sd.map Prod.fst).filter (fun k => hasRpb k), []) ∧
    migrate_checkpoint [("blocks.0.attn.rpb", t1), ("blocks.0.attn.weight", t2)] =
      ([("blocks.0.attn.weight", t2)], ["blocks.0.attn.rpb"], []) :=
  ⟨migrate_checkpoint_eq_filter sd, rfl⟩

/-- Claim C2, counterexample: with neither backend importable the module
body of `natten_compat.py` itself raises — the second
`from natten.functional import …` is outside every `try` block — so the
shim *does* fail at import
time, and no lazily raised dependency-missing diagnostic ever exists. -/
theorem natten_import_fails_eagerly_cex :
    moduleInit (A := Unit) (B := Unit) none none = .error .importFailed ∧
    ¬ ∃ s, moduleInit (A := Unit) (B := Unit) none none = .ok s := by
  refine ⟨rfl, ?_⟩
  rintro ⟨s, h⟩
  simp [moduleInit] at h

/-- Claim C2, amended: when neither the legacy nor the modern backend is
importable, importing the module itself fails, propagating the `ImportError`
of the modern-backend import; no shim state (and hence no attention
function) is ever created, and no install-instruction message is
produced. -/
theorem moduleInit_neither_importable_fails (A B : Type) :
    moduleInit (A := A) (B := B) none none = .error .importFailed :=
  rfl

/-- Claim C3, counterexample: with the modern backend active
(`_NATTEN_NEW_API = True`), a caller-supplied `rpb` tensor is neither
rejected nor dropped by `na1d_qk` / `na2d_qk` — it is forwarded unchanged
to the modern backend call as the `rpb` keyword argument. -/
theorem modern_qk_forwards_rpb_cex :
    na1d_qk (T := Nat) ⟨true, "new"⟩ 0 1 7 1 (some 5) =
      .na1dqkNew 0 1 7 1 (some 5) ∧
    forwardedRpb (na1d_qk (T := Nat) ⟨true, "new"⟩ 0 1 7 1 (some 5)) = some 5 ∧
    na2d_qk (T := Nat) ⟨true, "new"⟩ 0 1 7 1 (some 5) =
      .na2dqkNew 0 1 7 1 (some 5) ∧
    forwardedRpb (na2d_qk (T := Nat) ⟨true, "new"⟩ 0 1 7 1 (some 5)) = some 5 :=
  ⟨rfl, rfl, rfl, rfl⟩

/-- Claim C3, amended: when the modern backend is active and a caller
supplies a relative-position-bias tensor to `na1d_qk` / `na2d_qk`, the
bias is forwarded unchanged to the modern backend call as the trailing
`rpb` keyword argument — it is neither rejected with an error nor
dropped. -/
theorem modern_qk_forwards_bias {T : Type} (v : String) (q k : T)
    (ks d : Nat) (r : Option T) :
    na1d_qk ⟨true, v⟩ q k ks d r = .na1dqkNew q k ks d r ∧
    forwardedRpb (na1d_qk ⟨true, v⟩ q k ks d r) = r ∧
    na2d_qk ⟨true, v⟩ q k ks d r = .na2dqkNew q k ks d r ∧
    forwardedRpb (na2d_qk ⟨true, v⟩ q k ks d r) = r :=
  ⟨rfl, rfl, rfl, rfl⟩

/-- Claim C4: when only the legacy backend symbols are importable, import
selects the legacy backend and every query-key shim call routes to the
legacy convention `(query, key, bias, window, dilation)` with the bias
positional; when only the modern symbols are importable, import selects
the modern backend and the calls route to the modern convention
`(query, key, window, dilation)` with the bias as the trailing keyword
argument. -/
theorem shim_routes_by_backend {A B T : Type} (o : A) (nw : B) (v : String)
    (q k : T) (ks d : Nat) (r : Option T) :
    moduleInit (B := B) (some o) none = .ok ⟨false, "old"⟩ ∧
    moduleInit (A := A) none (some nw) = .ok ⟨true, "new"⟩ ∧
    na1d_qk ⟨false, v⟩ q k ks d r = .natten1dqkrpbOld q k r ks d ∧
    na2d_qk ⟨false, v⟩ q k ks d r = .natten2dqkrpbOld q k r ks d ∧
    na1d_qk ⟨true, v⟩ q k ks d r = .na1dqkNew q k ks d r ∧
    na2d_qk ⟨true, v⟩ q k ks d r = .na2dqkNew q k ks d r :=
  ⟨rfl, rfl, rfl, rfl, rfl, rfl⟩

/-- Claim C5, counterexample: the empty string is neither an ensemble name
nor a key of `NAME_TO_FILE`, yet `load_pretrained_model("")` does not fail —
Python's `model_name or list(NAME_TO_FILE.keys())[0]` treats the falsy `""`
like `None`, falls back to the default model, and performs a fetch (the
trace records the downloaded default checkpoint file). -/
theorem load_pretrained_empty_name_cex :
    isEnsembleName (some "") = false ∧
    List.lookup "" NAME_TO_FILE = none ∧
    load_pretrained_model (ε := Unit) 2
      (fun _ => .ok ((), ([] : List (String × Nat))))
      (fun _ _ => (0 : Nat)) (some "") =
      (.ok (.single 0), ["harmonix-fold0-0vra4ys2.pth"]) :=
  ⟨rfl, rfl, rfl⟩

/-- Claim C5, amended: for every *non-empty* `model_name` that is neither
an ensemble name nor a key of the static name-to-file registry,
`load_pretrained_model` fails with the `assert` error carrying the invalid
name and the list of valid names, and the fetch trace is empty — no
network fetch occurs.  (The empty string instead falls back to the default
model, like `None`.) -/
theorem unknown_name_fails_before_fetch {ε Cfg T M : Type} (fuel : Nat)
    (f : String → Except ε (Cfg × List (String × T)))
    (b : Cfg → List (String × T) → M) (n : String)
    (hne : n ≠ "")
    (hens : List.lookup n ENSEMBLE_MODELS = none)
    (hreg : List.lookup n NAME_TO_FILE = none) :
    load_pretrained_model (fuel + 1) f b (some n) =
      (.error (.unknownName n (NAME_TO_FILE.map Prod.fst)), []) := by
  have h1 : isEnsembleName (some n) = false := by
    simp [isEnsembleName, hens]
  have h2 : resolveName (some n) = n := by
    simp [resolveName, hne]
  simp only [load_pretrained_model, h1, h2, hreg, Bool.false_eq_true, if_false]

/-- Witness for the amended claim C5 at the concrete name `"bogus"`. -/
theorem unknown_name_fails_before_fetch_witness :
    ("bogus" ≠ "" ∧ List.lookup "bogus" ENSEMBLE_MODELS = none ∧
      List.lookup "bogus" NAME_TO_FILE = none) ∧
    load_pretrained_model (ε := Unit) 1
      (fun _ => .ok ((), ([] : List (String × Nat))))
      (fun _ _ => (0 : Nat)) (some "bogus") =
      (.error (.unknownName "bogus" (NAME_TO_FILE.map Prod.fst)), []) :=
  ⟨⟨by decide, rfl, rfl⟩,
   unknown_name_fails_before_fetch 0 _ _ "bogus" (by decide) rfl rfl⟩

/-- Claim C6: the bias-key-removal step is idempotent — running
`_migrate_checkpoint` on an already-migrated mapping returns it unchanged
and removes nothing (so applying it twice yields the same final mapping as
once), no key containing `'rpb'` case-insensitively survives a run, and on
a mapping with no matching key it succeeds and removes nothing. -/
theorem migrate_checkpoint_idempotent {T : Type} (sd : List (String × T)) :
    migrate_checkpoint ((migrate_checkpoint sd).1) =
      ((migrate_checkpoint sd).1, [], []) ∧
    (migrate_checkpoint sd).1.all (fun kv => !(hasRpb kv.1)) = true ∧
    (((sd.map Prod.fst).filter (fun k => hasRpb k)) = [] →
      migrate_checkpoint sd = (sd, [], [])) := by
  have hchar := migrate_checkpoint_eq_filter sd
  refine ⟨?_, ?_, ?_⟩
  · rw [hchar]
    show migrate_checkpoint (sd.filter _) = _
    rw [migrate_checkpoint_eq_filter]
    simp only [Prod.mk.injEq]
    refine ⟨?_, ?_, trivial⟩
    · rw [List.filter_filter]
      exact List.filter_congr (fun a _ => Bool.and_self _)
    · rw [List.filter_eq_nil_iff]
      intro k hk
      obtain ⟨kv, hkv, rfl⟩ := List.mem_map.mp hk
      have := (List.mem_filter.mp hkv).2
      simp only [Bool.not_eq_eq_eq_not, Bool.not_true] at this
      simp [this]
  · rw [hchar]
    show (sd.filter _).all _ = true
    rw [List.all_eq_true]
    intro kv hkv
    exact (List.mem_filter.mp hkv).2
  · intro h
    rw [hchar, h]
    simp only [Prod.mk.injEq, and_true]
    rw [List.filter_eq_self]
    intro kv hkv
    have hk : kv.1 ∈ sd.map Prod.fst := List.mem_map_of_mem Prod.fst hkv
    have := List.filter_eq_nil_iff.mp h kv.1 hk
    simp only [Bool.not_eq_true'] at this ⊢
    simpa using this

/-- Witness for claim C6 on a mapping with no `'rpb'` key. -/
theorem migrate_checkpoint_idempotent_witness :
    ((([("blocks.0.attn.weight", (1 : Nat))].map Prod.fst).filter
        (fun k => hasRpb k)) = []) ∧
    migrate_checkpoint [("blocks.0.attn.weight", (1 : Nat))] =
      ([("blocks.0.attn.weight", 1)], [], []) :=
  ⟨by decide,
   (migrate_checkpoint_idempotent [("blocks.0.attn.weight", (1 : Nat))]).2.2
     (by decide)⟩

/-- Claim C7: with every fetch succeeding, loading the ensemble name
`"harmonix-all"` produces an ensemble whose members are exactly the eight
models of the registered fold names `harmonix-fold0` … `harmonix-fold7`,
one per fold, built from that fold's checkpoint file, loaded sequentially
in the declared fold order (the fetch trace lists the eight fold files in
that order). -/
theorem load_ensemble_harmonix_all_members {ε Cfg T M : Type} (fuel : Nat)
    (g : String → Cfg × List (String × T)) (b : Cfg → List (String × T) → M) :
    List.lookup "harmonix-all" ENSEMBLE_MODELS =
      some ["harmonix-fold0", "harmonix-fold1", "harmonix-fold2",
            "harmonix-fold3", "harmonix-fold4", "harmonix-fold5",
            "harmonix-fold6", "harmonix-fold7"] ∧
    load_ensemble_model (ε := ε) (fuel + 2) (fun fn => .ok (g fn)) b
        (some "harmonix-all") =
      (.ok (.ensemble
        (["harmonix-fold0-0vra4ys2.pth", "harmonix-fold1-3ozjhtsj.pth",
          "harmonix-fold2-gmgo0nsy.pth", "harmonix-fold3-i92b7m8p.pth",
          "harmonix-fold4-1bql5qo0.pth", "harmonix-fold5-x4z5zeef.pth",
          "harmonix-fold6-x7t226rq.pth", "harmonix-fold7-qwwskhg6.pth"
         ].map (fun fn => .single (b (g fn).1 (migrate_checkpoint (g fn).2).1)))),
       ["harmonix-fold0-0vra4ys2.pth", "harmonix-fold1-3ozjhtsj.pth",
        "harmonix-fold2-gmgo0nsy.pth", "harmonix-fold3-i92b7m8p.pth",
        "harmonix-fold4-1bql5qo0.pth", "harmonix-fold5-x4z5zeef.pth",
        "harmonix-fold6-x7t226rq.pth", "harmonix-fold7-qwwskhg6.pth"]) :=
  ⟨rfl, rfl⟩

/-- Claim C8: if `load_ensemble_model` returns an ensemble at all, it has
one member per declared member name — every member's own load succeeded, so
a failing member load propagates its failure and no partial ensemble is
ever returned. -/
theorem load_ensemble_no_partial {ε Cfg T M : Type} (fuel : Nat)
    (f : String → Except ε (Cfg × List (String × T)))
    (b : Cfg → List (String × T) → M) (n : String)
    (members : List String) (ms : List (Loaded M)) (tr : List String)
    (hmem : List.lookup n ENSEMBLE_MODELS = some members)
    (hok : load_ensemble_model (fuel + 1) f b (some n) = (.ok (.ensemble ms), tr)) :
    ms.length = members.length ∧
    ∀ m ∈ members, ∃ lm tr',
      load_pretrained_model fuel f b (some m) = (.ok lm, tr') := by
  simp only [load_ensemble_model, ensembleBody, hmem] at hok
  rcases h2 : loadMembers
      (fun k => load_pretrained_model fuel f b (some k)) members with ⟨r, tr2⟩
  rw [h2] at hok
  cases r with
  | error e => simp at hok
  | ok ms2 =>
    simp only [Prod.mk.injEq, Except.ok.injEq, Loaded.ensemble.injEq] at hok
    obtain ⟨hms, _⟩ := hok
    obtain ⟨hlen, hall⟩ :=
      loadMembers_ok_each (fun k => load_pretrained_model fuel f b (some k))
        members ms2 tr2 h2
    exact ⟨hms ▸ hlen, hall⟩

/-- Witness for claim C8 at `"harmonix-all"` with an always-succeeding
fetch. -/
theorem load_ensemble_no_partial_witness :
    (List.replicate 8 (Loaded.single (0 : Nat))).length =
      (["harmonix-fold0", "harmonix-fold1", "harmonix-fold2",
        "harmonix-fold3", "harmonix-fold4", "harmonix-fold5",
        "harmonix-fold6", "harmonix-fold7"] : List String).length ∧
    ∀ m ∈ (["harmonix-fold0", "harmonix-fold1", "harmonix-fold2",
            "harmonix-fold3", "harmonix-fold4", "harmonix-fold5",
            "harmonix-fold6", "harmonix-fold7"] : List String), ∃ lm tr',
      load_pretrained_model (ε := Unit) 1
        (fun _ => .ok ((), ([] : List (String × Nat))))
        (fun _ _ => (0 : Nat)) (some m) = (.ok lm, tr') :=
  load_ensemble_no_partial 1
    (fun _ => .ok ((), ([] : List (String × Nat))))
    (fun _ _ => (0 : Nat)) "harmonix-all" _ _
    ["harmonix-fold0-0vra4ys2.pth", "harmonix-fold1-3ozjhtsj.pth",
     "harmonix-fold2-gmgo0nsy.pth", "harmonix-fold3-i92b7m8p.pth",
     "harmonix-fold4-1bql5qo0.pth", "harmonix-fold5-x4z5zeef.pth",
     "harmonix-fold6-x7t226rq.pth", "harmonix-fold7-qwwskhg6.pth"]
    rfl rfl

/-- Claim C9: calling `load_pretrained_model` with no model name resolves
to the fixed default `harmonix-fold0` — the first entry of `NAME_TO_FILE` —
and behaves exactly like an explicit `"harmonix-fold0"` call. -/
theorem load_pretrained_default_fold0 {ε Cfg T M : Type} (fuel : Nat)
    (f : String → Except ε (Cfg × List (String × T)))
    (b : Cfg → List (String × T) → M) :
    load_pretrained_model (fuel + 1) f b none =
      load_pretrained_model (fuel + 1) f b (some "harmonix-fold0") ∧
    resolveName none = "harmonix-fold0" ∧
    (NAME_TO_FILE.map Prod.fst).headD "" = "harmonix-fold0" :=
  ⟨rfl, rfl, rfl⟩

/-- Claim C10: calling `load_ensemble_model` directly with its default
`model_name=None`, or with any name absent from `ENSEMBLE_MODELS`, raises
the uncaught `KeyError` from the registry lookup — not the descriptive
unknown-name error and not a default load — and fetches nothing. -/
theorem load_ensemble_direct_keyError {ε Cfg T M : Type} (fuel : Nat)
    (f : String → Except ε (Cfg × List (String × T)))
    (b : Cfg → List (String × T) → M) :
    load_ensemble_model (fuel + 1) f b none = (.error (.keyError none), []) ∧
    ∀ n, List.lookup n ENSEMBLE_MODELS = none →
      load_ensemble_model (fuel + 1) f b (some n) =
        (.error (.keyError (some n)), []) := by
  refine ⟨rfl, ?_⟩
  intro n hn
  simp only [load_ensemble_model, ensembleBody, hn]

/-- Witness for claim C10 at the registered single-model name
`"harmonix-fold0"`, which is not an ensemble name. -/
theorem load_ensemble_direct_keyError_witness :
    List.lookup "harmonix-fold0" ENSEMBLE_MODELS = none ∧
    load_ensemble_model (ε := Unit) 1
      (fun _ => .ok ((), ([] : List (String × Nat))))
      (fun _ _ => (0 : Nat)) (some "harmonix-fold0") =
      (.error (.keyError (some "harmonix-fold0")), []) :=
  ⟨rfl,
   (load_ensemble_direct_keyError 0
     (fun _ => .ok ((), ([] : List (String × Nat))))
     (fun _ _ => (0 : Nat))).2 "harmonix-fold0" rfl⟩

end AllIn1
